import Mathlib

/-!
Verification of the pbix-to-pbit batch converter (`converter.py`).

The development shallowly embeds the orchestration pipeline: external tool
invocations are modelled as oracle results (`ProcOutcome`), filesystem paths
as lists of components, log output as an explicit event list, and the batch
loop's timing arithmetic over exact rationals.
-/

namespace PbixConverter

/-! ## Strings: Python-style helpers -/

/-- ASCII whitespace removed by Python `str.strip()`. -/
def isPySpace (c : Char) : Bool :=
  c == ' ' || c == '\t' || c == '\n' || c == '\r' || c == '\x0b' || c == '\x0c'

/-- Python `str.strip()` on a character list. -/
def pyStrip (s : List Char) : List Char :=
  ((s.dropWhile isPySpace).reverse.dropWhile isPySpace).reverse

/-- Python `sub in s` substring test (case-sensitive). -/
def containsSub (pat : List Char) : List Char → Bool
  | [] => pat.isEmpty
  | c :: rest => pat.isPrefixOf (c :: rest) || containsSub pat rest

/-- Case-insensitive character comparison, as `re.IGNORECASE` folds ASCII. -/
def lowerEq (a b : Char) : Bool := a.toLower == b.toLower

/-- Case-insensitive list-prefix test. -/
def ciIsPrefix : List Char → List Char → Bool
  | [], _ => true
  | _ :: _, [] => false
  | a :: as, b :: bs => lowerEq a b && ciIsPrefix as bs

/-- Leftmost case-insensitive occurrence of `pat`: returns the text after it.
This models `re.search` for a pattern `<literal>(.*)`, whose match position is
the first occurrence of the literal. -/
def searchCI (pat : List Char) : List Char → Option (List Char)
  | [] => if pat.isEmpty then some [] else none
  | c :: rest =>
      if ciIsPrefix pat (c :: rest) then some (List.drop pat.length (c :: rest))
      else searchCI pat rest

/-- Python `in` on `String`s. -/
def strContains (pat s : String) : Bool := containsSub pat.toList s.toList

/-! ## Logging model

`logger.debug/info/warning/error` calls become events in an explicit list. -/

inductive LogLevel
  | debug
  | info
  | warning
  | error
deriving DecidableEq

structure LogEvent where
  level : LogLevel
  msg : String
deriving DecidableEq

/-! ## `run_subprocess` -/

/-- Result of one `subprocess.run(..., check=True)` call, as seen by
`run_subprocess`'s `try`: normal completion with exit code zero,
`CalledProcessError` with the captured streams, or any other exception
while launching (e.g. executable not found). -/
inductive ProcOutcome
  | exitZero (stdout : String)
  | exitNonZero (returncode : Int) (stdout stderr : String)
  | execError (errMsg : String)
deriving DecidableEq

/-- `"could not be deserialized"` (extraction-stage unsupported-model marker). -/
def deserializedSubstr : List Char := "could not be deserialized".toList

/-- `run_subprocess(command, description)`: stdout on exit code zero; on
`CalledProcessError` classify by the known substring in captured stdout, log
at error level (plus a debug-level detail line) and return `none`; on any
other exception log a generic error and return `none`. -/
def run_subprocess (command : List String) (description : String)
    (r : ProcOutcome) : Option String × List LogEvent :=
  match r with
  | .exitZero out => (some out, [])
  | .exitNonZero returncode out err =>
      let primary : LogEvent :=
        if containsSub deserializedSubstr out.toList then
          ⟨.error, "File model is not supported. Model required: V3"⟩
        else
          ⟨.error, "Error while processing the file. Check the logs for more information."⟩
      (none,
       [primary,
        ⟨.debug,
         description ++ " failed with return code " ++ toString returncode ++
           "\nCommand: " ++ String.intercalate " " command ++
           "\nStdout: " ++ out ++ "\nStderr: " ++ err⟩])
  | .execError m =>
      (none, [⟨.error, "Unexpected error during " ++ description ++ ": " ++ m⟩])

/-! ## Paths

A `pathlib.Path` is modelled by its list of components. -/

abbrev PyPath := List String

/-- Rendering of a path for command lines and log messages. -/
def pathStr (p : PyPath) : String := String.intercalate "/" p

/-- `Path.name`: the final component. -/
def pathName (p : PyPath) : String := p.getLastD ""

/-- `pbix_file.relative_to(report_folder)`: defined exactly when the base's
components are a prefix; otherwise `pathlib` raises `ValueError`. -/
def relative_to (f base : PyPath) : Option PyPath :=
  if base.isPrefixOf f then some (f.drop base.length) else none

/-- Message of the `ValueError` raised by `relative_to` on failure. -/
def relativeToErrMsg (f base : PyPath) : String :=
  "'" ++ pathStr f ++ "' is not in the subpath of '" ++ pathStr base ++ "'"

/-- `output_folder / relative_path.parent` (line 301). -/
def target_dir_of (output_folder relative_path : PyPath) : PyPath :=
  output_folder ++ relative_path.dropLast

/-- `temp_folder / relative_path.parent` (line 302). -/
def extract_folder_of (temp_folder relative_path : PyPath) : PyPath :=
  temp_folder ++ relative_path.dropLast

/-- The target directory the pipeline computes for one file (lines 300-301). -/
def item_target_dir (output_folder report_folder pbix_file : PyPath) : Option PyPath :=
  (relative_to pbix_file report_folder).map (target_dir_of output_folder)

/-- The extraction directory the pipeline computes for one file (lines 300, 302). -/
def item_extract_dir (temp_folder report_folder pbix_file : PyPath) : Option PyPath :=
  (relative_to pbix_file report_folder).map (extract_folder_of temp_folder)

/-! ## The two tool invocations -/

/-- Command vector of `extract_pbix`. -/
def extract_pbix_command (cli_path pbix_file extract_folder : PyPath) : List String :=
  [pathStr cli_path, "extract", pathStr pbix_file, "-extractFolder", pathStr extract_folder]

/-- `extract_pbix`: run the extraction tool. -/
def extract_pbix (cli_path pbix_file extract_folder : PyPath)
    (r : ProcOutcome) : Option String × List LogEvent :=
  run_subprocess (extract_pbix_command cli_path pbix_file extract_folder)
    ("extraction of " ++ pathName pbix_file) r

/-- Command vector of `compile_to_pbit`. -/
def compile_to_pbit_command (core_path extract_folder target_dir : PyPath) : List String :=
  [pathStr core_path, "compile", pathStr extract_folder, pathStr target_dir, "PBIT", "True"]

/-- `compile_to_pbit`: run the compilation tool. -/
def compile_to_pbit (core_path extract_folder target_dir : PyPath)
    (r : ProcOutcome) : Option String × List LogEvent :=
  run_subprocess (compile_to_pbit_command core_path extract_folder target_dir)
    ("compilation to PBIT in " ++ pathStr target_dir) r

/-! ## `parse_pbit_output` -/

/-- The result-marker literal of the regex `r"PBIT file written to: (.*)"`. -/
def pbitMarker : List Char := "PBIT file written to: ".toList

/-- `"does not contain a V3 model"` (compilation-stage unsupported-model marker). -/
def v3Substr : List Char := "does not contain a V3 model".toList

/-- `match.group(1).strip()`: the capture `(.*)` runs to the end of the line
(`.` never matches a newline), then is stripped. -/
def capturedPath (rest : List Char) : String :=
  String.mk (pyStrip (rest.takeWhile (fun c => c != '\n')))

/-- `parse_pbit_output(stdout)`: the returned `Optional[str]` and the log it
emits. -/
def parse_pbit_output (stdout : String) : Option String × List LogEvent :=
  match searchCI pbitMarker stdout.toList with
  | some rest => (some (capturedPath rest), [])
  | none =>
      if containsSub v3Substr stdout.toList then
        (none, [⟨.warning, "Skipping: PBIX requires V3 model"⟩])
      else
        (none, [⟨.error, "Failed to parse PBIT output path"⟩])

/-! ## `process_pbix_file` -/

/-- Python truthiness of the `Optional[str]` returned by `run_subprocess`,
as tested by `if not extract_stdout` / `if not compile_stdout`. -/
def optTruthy : Option String → Bool
  | none => false
  | some s => s != ""

/-- How one item ended. `noPbit` covers the `else` branch at line 321 (parse
returned a falsy value); the warning/error distinction lives in the logs. -/
inductive ItemOutcome
  | succeeded (path : String)
  | noPbit
  | extractAborted
  | compileAborted
  | unexpectedError (errMsg : String)
deriving DecidableEq

/-- Oracle for the effectful steps of one item: the two tool results, and
whether `ensure_directories` raises (the one other spot inside the `try`
that can throw, e.g. an `OSError` from `mkdir`). -/
structure PipelineEnv where
  extractResult : ProcOutcome
  compileResult : ProcOutcome
  mkdirError : Option String
deriving DecidableEq

/-- Observable behaviour of `process_pbix_file` on one item. -/
structure ItemReport where
  outcome : ItemOutcome
  extractInvoked : Bool
  compileInvoked : Bool
  rmtreeCalled : Bool
  logs : List LogEvent
deriving DecidableEq

/-- The `"-" * 70` separator line. -/
def separatorLine : String := String.mk (List.replicate 70 '-')

/-- The error event of the `except Exception` boundary at line 324. -/
def unexpectedLog (pbix_file : PyPath) (e : String) : LogEvent :=
  ⟨.error, "Unexpected error processing " ++ pathStr pbix_file ++ ": " ++ e⟩

/-- `process_pbix_file`: the whole single-item pipeline (lines 287-324). -/
def process_pbix_file (pbix_file output_folder cli_path core_path
    report_folder temp_folder : PyPath) (clean_extract : Bool)
    (env : PipelineEnv) : ItemReport :=
  match relative_to pbix_file report_folder with
  | none =>
      { outcome := .unexpectedError (relativeToErrMsg pbix_file report_folder),
        extractInvoked := false, compileInvoked := false, rmtreeCalled := false,
        logs := [unexpectedLog pbix_file (relativeToErrMsg pbix_file report_folder)] }
  | some relative_path =>
      let target_dir := target_dir_of output_folder relative_path
      let extract_folder := extract_folder_of temp_folder relative_path
      let headerLogs : List LogEvent :=
        [⟨.info, separatorLine⟩, ⟨.info, "Processing: " ++ pathStr pbix_file⟩]
      match env.mkdirError with
      | some e =>
          { outcome := .unexpectedError e,
            extractInvoked := false, compileInvoked := false, rmtreeCalled := false,
            logs := headerLogs ++ [unexpectedLog pbix_file e] }
      | none =>
          let extractRun := extract_pbix cli_path pbix_file extract_folder env.extractResult
          if optTruthy extractRun.1 = false then
            { outcome := .extractAborted,
              extractInvoked := true, compileInvoked := false, rmtreeCalled := false,
              logs := headerLogs ++ extractRun.2 }
          else
            let compileRun := compile_to_pbit core_path extract_folder target_dir env.compileResult
            if optTruthy compileRun.1 = false then
              { outcome := .compileAborted,
                extractInvoked := true, compileInvoked := true, rmtreeCalled := false,
                logs := headerLogs ++ extractRun.2 ++ compileRun.2 }
            else
              let parseRun := parse_pbit_output (compileRun.1.getD "")
              match parseRun.1 with
              | some p =>
                  if p != "" then
                    { outcome := .succeeded p,
                      extractInvoked := true, compileInvoked := true,
                      rmtreeCalled := clean_extract,
                      logs := headerLogs ++ extractRun.2 ++ compileRun.2 ++ parseRun.2 ++
                        [⟨.info, "Output: " ++ p⟩] ++
                        (if clean_extract then
                          [⟨.info, "Extract folder cleaned: " ++ pathStr extract_folder⟩]
                         else []) }
                  else
                    { outcome := .noPbit,
                      extractInvoked := true, compileInvoked := true, rmtreeCalled := false,
                      logs := headerLogs ++ extractRun.2 ++ compileRun.2 ++ parseRun.2 ++
                        [⟨.warning, "No PBIT file generated for " ++ pathName pbix_file⟩] }
              | none =>
                  { outcome := .noPbit,
                    extractInvoked := true, compileInvoked := true, rmtreeCalled := false,
                    logs := headerLogs ++ extractRun.2 ++ compileRun.2 ++ parseRun.2 ++
                      [⟨.warning, "No PBIT file generated for " ++ pathName pbix_file⟩] }

/-! ## The batch loop (`main`, lines 359-365): outcome sequence -/

/-- The per-file loop of `main`: one `process_pbix_file` call per discovered
file, in order; the callee never raises, so the loop is a plain `map`. -/
def runBatch (output_folder cli_path core_path report_folder temp_folder : PyPath)
    (clean : Bool) (envs : PyPath → PipelineEnv) (files : List PyPath) : List ItemReport :=
  files.map (fun f =>
    process_pbix_file f output_folder cli_path core_path report_folder temp_folder
      clean (envs f))

/-! ## The batch loop (`main`, lines 359-378): timing and progress -/

/-- One `Progress: ...` log line (line 373): processed count, total count,
percentage, and the ETA in seconds before `format_duration` is applied. -/
structure ProgressLine where
  processed : ℕ
  totalFiles : ℕ
  percent : ℚ
  etaSeconds : ℚ
deriving DecidableEq

/-- The timing accounting of `main`'s loop over the measured per-item
durations: threads `processed_count` and `total_time`, emits a progress line
after every item but the last, and returns the final `total_time`. -/
def mainLoopTiming : List ℚ → ℕ → ℕ → ℚ → List ProgressLine × ℚ
  | [], _, _, total_time => ([], total_time)
  | d :: rest, processed_count, total_files, total_time =>
      let pc := processed_count + 1
      let tt := total_time + d
      let prog : List ProgressLine :=
        if pc < total_files then
          [⟨pc, total_files, (((pc : ℕ) : ℚ) / ((total_files : ℕ) : ℚ)) * 100,
            (tt / ((pc : ℕ) : ℚ)) * (((total_files : ℕ) : ℚ) - ((pc : ℕ) : ℚ))⟩]
        else []
      let next := mainLoopTiming rest pc total_files tt
      (prog ++ next.1, next.2)

/-- The whole run's timing: counters start at zero, `total_files = len(pbix_files)`. -/
def runTiming (durations : List ℚ) : List ProgressLine × ℚ :=
  mainLoopTiming durations 0 durations.length 0

/-! ## Helper lemmas -/

/-- Taking the parent commutes with relativizing: dropping the last component
after dropping a prefix equals dropping the prefix of the parent. -/
theorem dropLast_drop_eq {α : Type _} (l : List α) :
    ∀ n : ℕ, (l.drop n).dropLast = l.dropLast.drop n := by
  induction l with
  | nil => intro n; simp
  | cons a l ih =>
      intro n
      cases n with
      | zero => simp
      | succ m =>
          cases l with
          | nil => simp
          | cons b l2 =>
              simpa using ih m

/-- A pattern that is a prefix of the list is found by `containsSub`. -/
theorem containsSub_here (pat l : List Char) (h : pat.isPrefixOf l = true) :
    containsSub pat l = true := by
  cases l with
  | nil =>
      cases pat with
      | nil => rfl
      | cons c cs => simp [List.isPrefixOf] at h
  | cons c rest => simp [containsSub, h]

/-- `containsSub` finds a pattern that occurs anywhere in the list. -/
theorem containsSub_append (pat pre post : List Char) :
    containsSub pat (pre ++ (pat ++ post)) = true := by
  induction pre with
  | nil =>
      apply containsSub_here
      simp
  | cons d pre ih =>
      simp only [List.cons_append, containsSub, List.append_eq, ih, Bool.or_true]

/-! ## C1 -/

/-- **C1.** If the extraction and compilation invocations both return
(nonempty) output and the compilation output contains a line matching the
result marker `PBIT file written to: <path>` case-insensitively (with a
nonempty path once trimmed), then the pipeline reports success and the
reported result location is the captured path substring, surrounding
whitespace trimmed. -/
theorem c1_marker_success
    (pbix_file output_folder cli_path core_path report_folder temp_folder : PyPath)
    (clean_extract : Bool) (env : PipelineEnv)
    (rel : PyPath) (hrel : relative_to pbix_file report_folder = some rel)
    (hmk : env.mkdirError = none)
    (es : String) (hex : env.extractResult = .exitZero es) (hes : es ≠ "")
    (cs : String) (hco : env.compileResult = .exitZero cs) (hcs : cs ≠ "")
    (rest : List Char) (hm : searchCI pbitMarker cs.toList = some rest)
    (hp : capturedPath rest ≠ "") :
    (process_pbix_file pbix_file output_folder cli_path core_path report_folder
        temp_folder clean_extract env).outcome = .succeeded (capturedPath rest) := by
  have hm2 : searchCI pbitMarker cs.data = some rest := hm
  simp [process_pbix_file, hrel, hmk, extract_pbix, compile_to_pbit, run_subprocess,
    hex, hco, optTruthy, hes, hcs, parse_pbit_output, hm2, hp]

/-- Witness for C1 at a concrete nested file and concrete tool outputs. -/
theorem c1_witness :
    (process_pbix_file ["r", "sub", "a.pbix"] ["out"] ["cli"] ["core"] ["r"] ["tmp"]
        true ⟨.exitZero "extracting...", .exitZero "log\nPBIT file written to:  out/sub/a.pbit \nend", none⟩).outcome
      = .succeeded (capturedPath " out/sub/a.pbit \nend".toList) :=
  c1_marker_success ["r", "sub", "a.pbix"] ["out"] ["cli"] ["core"] ["r"] ["tmp"] true
    ⟨.exitZero "extracting...", .exitZero "log\nPBIT file written to:  out/sub/a.pbit \nend", none⟩
    ["sub", "a.pbix"] (by decide) rfl
    "extracting..." rfl (by decide)
    "log\nPBIT file written to:  out/sub/a.pbit \nend" rfl (by decide)
    " out/sub/a.pbit \nend".toList (by decide) (by decide)

/-! ## C2 -/

/-- **C2.** For a file under the configured root (at any nesting depth), the
computed target directory is `output_root` joined with the relative path of
the file's parent under the root, and the computed extraction directory is
`temp_root` joined with that same relative parent path. -/
theorem c2_mirrored_dirs
    (pbix_file report_folder output_folder temp_folder : PyPath)
    (h : report_folder <+: pbix_file.dropLast) :
    item_target_dir output_folder report_folder pbix_file
        = some (output_folder ++ pbix_file.dropLast.drop report_folder.length) ∧
    item_extract_dir temp_folder report_folder pbix_file
        = some (temp_folder ++ pbix_file.dropLast.drop report_folder.length) := by
  have hdl : pbix_file.dropLast <+: pbix_file := List.dropLast_prefix pbix_file
  have hpre : report_folder <+: pbix_file := h.trans hdl
  have hrel : relative_to pbix_file report_folder
      = some (pbix_file.drop report_folder.length) := by
    simp [relative_to, hpre]
  constructor <;>
    simp [item_target_dir, item_extract_dir, hrel, target_dir_of, extract_folder_of,
      dropLast_drop_eq]

/-- Witness for C2 at a file nested two levels below the root. -/
theorem c2_witness :
    item_target_dir ["out"] ["r"] ["r", "a", "b", "f.pbix"] = some ["out", "a", "b"] ∧
    item_extract_dir ["tmp"] ["r"] ["r", "a", "b", "f.pbix"] = some ["tmp", "a", "b"] :=
  c2_mirrored_dirs ["r", "a", "b", "f.pbix"] ["r"] ["out"] ["tmp"] (by decide)

/-! ## C3 -/

/-- **C3.** If both invocations return output and the compilation output
contains `does not contain a V3 model` but no result-marker line, the item's
outcome is the skipped one, reported with a warning, and no error-level
message is emitted for it — it is never the failed (error) outcome. -/
theorem c3_v3_skipped
    (pbix_file output_folder cli_path core_path report_folder temp_folder : PyPath)
    (clean_extract : Bool) (env : PipelineEnv)
    (rel : PyPath) (hrel : relative_to pbix_file report_folder = some rel)
    (hmk : env.mkdirError = none)
    (es : String) (hex : env.extractResult = .exitZero es) (hes : es ≠ "")
    (cs : String) (hco : env.compileResult = .exitZero cs) (hcs : cs ≠ "")
    (hv3 : containsSub v3Substr cs.toList = true)
    (hm : searchCI pbitMarker cs.toList = none) :
    (process_pbix_file pbix_file output_folder cli_path core_path report_folder
        temp_folder clean_extract env).outcome = .noPbit ∧
    (⟨.warning, "Skipping: PBIX requires V3 model"⟩ : LogEvent)
        ∈ (process_pbix_file pbix_file output_folder cli_path core_path report_folder
            temp_folder clean_extract env).logs ∧
    ∀ ev ∈ (process_pbix_file pbix_file output_folder cli_path core_path report_folder
        temp_folder clean_extract env).logs, ev.level ≠ LogLevel.error := by
  have hm2 : searchCI pbitMarker cs.data = none := hm
  have hv32 : containsSub v3Substr cs.data = true := hv3
  simp [process_pbix_file, hrel, hmk, extract_pbix, compile_to_pbit, run_subprocess,
    hex, hco, optTruthy, hes, hcs, parse_pbit_output, hm2, hv32]

/-- Witness for C3 with a concrete V3-marker compilation output. -/
theorem c3_witness :
    (process_pbix_file ["r", "a.pbix"] ["out"] ["cli"] ["core"] ["r"] ["tmp"] false
        ⟨.exitZero "ok", .exitZero "the file does not contain a V3 model, giving up", none⟩).outcome
      = .noPbit ∧
    (⟨.warning, "Skipping: PBIX requires V3 model"⟩ : LogEvent)
        ∈ (process_pbix_file ["r", "a.pbix"] ["out"] ["cli"] ["core"] ["r"] ["tmp"] false
            ⟨.exitZero "ok", .exitZero "the file does not contain a V3 model, giving up", none⟩).logs ∧
    ∀ ev ∈ (process_pbix_file ["r", "a.pbix"] ["out"] ["cli"] ["core"] ["r"] ["tmp"] false
        ⟨.exitZero "ok", .exitZero "the file does not contain a V3 model, giving up", none⟩).logs,
      ev.level ≠ LogLevel.error :=
  c3_v3_skipped ["r", "a.pbix"] ["out"] ["cli"] ["core"] ["r"] ["tmp"] false
    ⟨.exitZero "ok", .exitZero "the file does not contain a V3 model, giving up", none⟩
    ["a.pbix"] (by decide) rfl
    "ok" rfl (by decide)
    "the file does not contain a V3 model, giving up" rfl (by decide)
    (by decide) (by decide)

/-! ## C9 -/

/-- **C9.** The extraction directory is recursively deleted exactly when the
clean option is enabled and the item succeeded (and the deletion, being
best-effort, leaves the outcome successful); if the item did not succeed or
the option is off, the pipeline never deletes it. -/
theorem c9_clean_iff
    (pbix_file output_folder cli_path core_path report_folder temp_folder : PyPath)
    (clean_extract : Bool) (env : PipelineEnv) :
    (process_pbix_file pbix_file output_folder cli_path core_path report_folder
        temp_folder clean_extract env).rmtreeCalled = true ↔
      (clean_extract = true ∧
        ∃ path, (process_pbix_file pbix_file output_folder cli_path core_path
          report_folder temp_folder clean_extract env).outcome = .succeeded path) := by
  rcases env with ⟨er, cr, me⟩
  cases hrel : relative_to pbix_file report_folder with
  | none => simp [process_pbix_file, hrel]
  | some rel =>
      cases me with
      | some e => simp [process_pbix_file, hrel]
      | none =>
          simp only [process_pbix_file, hrel]
          by_cases hex : optTruthy (extract_pbix cli_path pbix_file
              (extract_folder_of temp_folder rel) er).1 = false
          · simp [hex]
          · rw [if_neg hex]
            by_cases hco : optTruthy (compile_to_pbit core_path
                (extract_folder_of temp_folder rel)
                (target_dir_of output_folder rel) cr).1 = false
            · simp [hco]
            · rw [if_neg hco]
              rcases hp : (parse_pbit_output ((compile_to_pbit core_path
                  (extract_folder_of temp_folder rel)
                  (target_dir_of output_folder rel) cr).1.getD "")).1 with _ | p
              · simp [hp]
              · by_cases hpe : p = ""
                · simp [hpe]
                · simp [hpe]

/-! ## C10 -/

/-- **C10.** A tool invocation that exits with code zero but empty standard
output is treated like an invocation failure: at the extraction stage the
item aborts without invoking compilation, and at the compilation stage the
item aborts without reaching the success path. -/
theorem c10_empty_output_aborts
    (pbix_file output_folder cli_path core_path report_folder temp_folder : PyPath)
    (clean_extract : Bool)
    (rel : PyPath) (hrel : relative_to pbix_file report_folder = some rel)
    (env1 env2 : PipelineEnv)
    (h1e : env1.extractResult = .exitZero "") (h1m : env1.mkdirError = none)
    (es : String) (h2e : env2.extractResult = .exitZero es) (hes : es ≠ "")
    (h2c : env2.compileResult = .exitZero "") (h2m : env2.mkdirError = none) :
    ((process_pbix_file pbix_file output_folder cli_path core_path report_folder
        temp_folder clean_extract env1).outcome = .extractAborted ∧
      (process_pbix_file pbix_file output_folder cli_path core_path report_folder
        temp_folder clean_extract env1).compileInvoked = false) ∧
    ((process_pbix_file pbix_file output_folder cli_path core_path report_folder
        temp_folder clean_extract env2).outcome = .compileAborted ∧
      (process_pbix_file pbix_file output_folder cli_path core_path report_folder
        temp_folder clean_extract env2).rmtreeCalled = false) := by
  constructor
  · constructor <;>
      simp [process_pbix_file, hrel, h1m, extract_pbix, run_subprocess, h1e, optTruthy]
  · constructor <;>
      simp [process_pbix_file, hrel, h2m, extract_pbix, compile_to_pbit, run_subprocess,
        h2e, h2c, hes, optTruthy]

/-- Witness for C10: concrete zero-exit empty-stdout runs at each stage. -/
theorem c10_witness :
    ((process_pbix_file ["r", "a.pbix"] ["out"] ["cli"] ["core"] ["r"] ["tmp"] false
        ⟨.exitZero "", .exitZero "unused", none⟩).outcome = .extractAborted ∧
      (process_pbix_file ["r", "a.pbix"] ["out"] ["cli"] ["core"] ["r"] ["tmp"] false
        ⟨.exitZero "", .exitZero "unused", none⟩).compileInvoked = false) ∧
    ((process_pbix_file ["r", "a.pbix"] ["out"] ["cli"] ["core"] ["r"] ["tmp"] false
        ⟨.exitZero "extracted", .exitZero "", none⟩).outcome = .compileAborted ∧
      (process_pbix_file ["r", "a.pbix"] ["out"] ["cli"] ["core"] ["r"] ["tmp"] false
        ⟨.exitZero "extracted", .exitZero "", none⟩).rmtreeCalled = false) :=
  c10_empty_output_aborts ["r", "a.pbix"] ["out"] ["cli"] ["core"] ["r"] ["tmp"] false
    ["a.pbix"] (by decide)
    ⟨.exitZero "", .exitZero "unused", none⟩ ⟨.exitZero "extracted", .exitZero "", none⟩
    rfl rfl "extracted" rfl (by decide) rfl rfl

/-! ## C4 -/

/-- **C4.** No per-item failure aborts the batch: the batch yields exactly one
report per discovered file, the report at any position is a function of that
file alone, and an unexpected exception while processing a file is caught at
the pipeline boundary, turned into a failure outcome for that item only, and
logged with a message referencing that file. -/
theorem c4_exception_isolated
    (output_folder cli_path core_path report_folder temp_folder : PyPath)
    (clean : Bool) (envs : PyPath → PipelineEnv) (files : List PyPath)
    (i j : ℕ) (hi : i < files.length) (hj : j < files.length)
    (f : PyPath) (hf : f = files.get ⟨i, hi⟩)
    (rel : PyPath) (hrel : relative_to f report_folder = some rel)
    (e : String) (hexc : (envs f).mkdirError = some e) :
    (runBatch output_folder cli_path core_path report_folder temp_folder clean envs
        files).length = files.length ∧
    (runBatch output_folder cli_path core_path report_folder temp_folder clean envs
        files).get? j
      = some (process_pbix_file (files.get ⟨j, hj⟩) output_folder cli_path core_path
          report_folder temp_folder clean (envs (files.get ⟨j, hj⟩))) ∧
    (process_pbix_file f output_folder cli_path core_path report_folder temp_folder
        clean (envs f)).outcome = .unexpectedError e ∧
    unexpectedLog f e ∈ (process_pbix_file f output_folder cli_path core_path
        report_folder temp_folder clean (envs f)).logs ∧
    (pathStr f).toList <:+: (unexpectedLog f e).msg.toList := by
  refine ⟨by simp [runBatch], ?_, ?_, ?_, ?_⟩
  · simp [runBatch, List.getElem?_eq_getElem hj]
  · simp [process_pbix_file, hrel, hexc]
  · simp [process_pbix_file, hrel, hexc]
  · refine ⟨"Unexpected error processing ".toList, (": " ++ e).toList, ?_⟩
    simp [unexpectedLog, String.toList]

/-- Witness for C4 on a two-file batch whose first item raises. -/
theorem c4_witness :
    (runBatch ["out"] ["cli"] ["core"] ["r"] ["tmp"] false
        (fun f => if f = ["r", "a.pbix"] then
            ⟨.exitZero "x", .exitZero "x", some "disk full"⟩
          else ⟨.exitZero "x", .exitZero "x", none⟩)
        [["r", "a.pbix"], ["r", "b.pbix"]]).length = 2 ∧
    (runBatch ["out"] ["cli"] ["core"] ["r"] ["tmp"] false
        (fun f => if f = ["r", "a.pbix"] then
            ⟨.exitZero "x", .exitZero "x", some "disk full"⟩
          else ⟨.exitZero "x", .exitZero "x", none⟩)
        [["r", "a.pbix"], ["r", "b.pbix"]]).get? 1
      = some (process_pbix_file ["r", "b.pbix"] ["out"] ["cli"] ["core"] ["r"] ["tmp"]
          false ((fun f => if f = ["r", "a.pbix"] then
              (⟨.exitZero "x", .exitZero "x", some "disk full"⟩ : PipelineEnv)
            else ⟨.exitZero "x", .exitZero "x", none⟩) ["r", "b.pbix"])) ∧
    (process_pbix_file ["r", "a.pbix"] ["out"] ["cli"] ["core"] ["r"] ["tmp"] false
        ((fun f => if f = ["r", "a.pbix"] then
            (⟨.exitZero "x", .exitZero "x", some "disk full"⟩ : PipelineEnv)
          else ⟨.exitZero "x", .exitZero "x", none⟩) ["r", "a.pbix"])).outcome
      = .unexpectedError "disk full" ∧
    unexpectedLog ["r", "a.pbix"] "disk full"
      ∈ (process_pbix_file ["r", "a.pbix"] ["out"] ["cli"] ["core"] ["r"] ["tmp"] false
          ((fun f => if f = ["r", "a.pbix"] then
              (⟨.exitZero "x", .exitZero "x", some "disk full"⟩ : PipelineEnv)
            else ⟨.exitZero "x", .exitZero "x", none⟩) ["r", "a.pbix"])).logs ∧
    (pathStr ["r", "a.pbix"]).toList
      <:+: (unexpectedLog ["r", "a.pbix"] "disk full").msg.toList :=
  c4_exception_isolated ["out"] ["cli"] ["core"] ["r"] ["tmp"] false
    (fun f => if f = ["r", "a.pbix"] then
        ⟨.exitZero "x", .exitZero "x", some "disk full"⟩
      else ⟨.exitZero "x", .exitZero "x", none⟩)
    [["r", "a.pbix"], ["r", "b.pbix"]] 0 1 (by decide) (by decide)
    ["r", "a.pbix"] rfl ["a.pbix"] (by decide) "disk full" (by decide)

/-! ## C5 -/

/-- **C5 counterexample.** A file outside the root does not terminate the
run: in a two-file batch whose first file is outside the root, the first item
becomes a caught per-item failure and the second file is still processed to
success, so the relative-path failure is not fatal. -/
theorem c5_counterexample :
    (runBatch ["out"] ["cli"] ["core"] ["r"] ["tmp"] false
        (fun _ => ⟨.exitZero "ok", .exitZero "PBIT file written to: out/b.pbit", none⟩)
        [["x", "a.pbix"], ["r", "b.pbix"]]).length = 2 ∧
    ((runBatch ["out"] ["cli"] ["core"] ["r"] ["tmp"] false
        (fun _ => ⟨.exitZero "ok", .exitZero "PBIT file written to: out/b.pbit", none⟩)
        [["x", "a.pbix"], ["r", "b.pbix"]]).get? 0).map ItemReport.outcome
      = some (.unexpectedError (relativeToErrMsg ["x", "a.pbix"] ["r"])) ∧
    ((runBatch ["out"] ["cli"] ["core"] ["r"] ["tmp"] false
        (fun _ => ⟨.exitZero "ok", .exitZero "PBIT file written to: out/b.pbit", none⟩)
        [["x", "a.pbix"], ["r", "b.pbix"]]).get? 1).map ItemReport.outcome
      = some (.succeeded "out/b.pbit") := by
  decide

/-- **C5 (amended).** For a file not under the root, the relative-path
computation raises an error that the per-item handler catches: the item gets
a per-item failure outcome, the failure is logged, and the batch still yields
one report per file — it is not a fatal error terminating the run. -/
theorem c5_amended_caught
    (pbix_file output_folder cli_path core_path report_folder temp_folder : PyPath)
    (clean : Bool) (env : PipelineEnv)
    (envs : PyPath → PipelineEnv) (files : List PyPath)
    (h : ¬ report_folder <+: pbix_file) :
    (process_pbix_file pbix_file output_folder cli_path core_path report_folder
        temp_folder clean env).outcome
      = .unexpectedError (relativeToErrMsg pbix_file report_folder) ∧
    unexpectedLog pbix_file (relativeToErrMsg pbix_file report_folder)
      ∈ (process_pbix_file pbix_file output_folder cli_path core_path report_folder
          temp_folder clean env).logs ∧
    (runBatch output_folder cli_path core_path report_folder temp_folder clean envs
        files).length = files.length := by
  have hrel : relative_to pbix_file report_folder = none := by
    simp [relative_to, h]
  exact ⟨by simp [process_pbix_file, hrel], by simp [process_pbix_file, hrel],
    by simp [runBatch]⟩

/-- Witness for the amended C5 at a concrete out-of-root file. -/
theorem c5_amended_witness :
    (process_pbix_file ["x", "a.pbix"] ["out"] ["cli"] ["core"] ["r"] ["tmp"] false
        ⟨.exitZero "ok", .exitZero "ok", none⟩).outcome
      = .unexpectedError (relativeToErrMsg ["x", "a.pbix"] ["r"]) ∧
    unexpectedLog ["x", "a.pbix"] (relativeToErrMsg ["x", "a.pbix"] ["r"])
      ∈ (process_pbix_file ["x", "a.pbix"] ["out"] ["cli"] ["core"] ["r"] ["tmp"] false
          ⟨.exitZero "ok", .exitZero "ok", none⟩).logs ∧
    (runBatch ["out"] ["cli"] ["core"] ["r"] ["tmp"] false
        (fun _ => ⟨.exitZero "ok", .exitZero "ok", none⟩)
        [["x", "a.pbix"], ["r", "b.pbix"]]).length = 2 :=
  c5_amended_caught ["x", "a.pbix"] ["out"] ["cli"] ["core"] ["r"] ["tmp"] false
    ⟨.exitZero "ok", .exitZero "ok", none⟩
    (fun _ => ⟨.exitZero "ok", .exitZero "ok", none⟩)
    [["x", "a.pbix"], ["r", "b.pbix"]] (by decide)

/-! ## C6 -/

/-- **C6 counterexample.** Two distinct files in the same directory get the
*same* target directory and the *same* extraction directory, so the per-item
directories of distinct files are not always disjoint. -/
theorem c6_counterexample :
    (["r", "a.pbix"] : PyPath) ≠ ["r", "b.pbix"] ∧
    item_target_dir ["out"] ["r"] ["r", "a.pbix"]
      = item_target_dir ["out"] ["r"] ["r", "b.pbix"] ∧
    item_extract_dir ["tmp"] ["r"] ["r", "a.pbix"]
      = item_extract_dir ["tmp"] ["r"] ["r", "b.pbix"] := by
  decide

/-- **C6 (amended).** The computed directories mirror the relative parent
path, so two discovered files with *distinct relative parent directories* get
distinct target directories and distinct extraction directories; files
sharing a parent directory share both computed directories. -/
theorem c6_amended_distinct_parents
    (f g root output_folder temp_folder : PyPath)
    (hf : root <+: f) (hg : root <+: g)
    (hne : (f.drop root.length).dropLast ≠ (g.drop root.length).dropLast) :
    item_target_dir output_folder root f ≠ item_target_dir output_folder root g ∧
    item_extract_dir temp_folder root f ≠ item_extract_dir temp_folder root g := by
  have hrf : relative_to f root = some (f.drop root.length) := by
    simp [relative_to, hf]
  have hrg : relative_to g root = some (g.drop root.length) := by
    simp [relative_to, hg]
  constructor <;>
    simp [item_target_dir, item_extract_dir, hrf, hrg, target_dir_of,
      extract_folder_of, hne]

/-- Witness for the amended C6 on files in two different subdirectories. -/
theorem c6_amended_witness :
    item_target_dir ["out"] ["r"] ["r", "a", "x.pbix"]
        ≠ item_target_dir ["out"] ["r"] ["r", "b", "y.pbix"] ∧
    item_extract_dir ["tmp"] ["r"] ["r", "a", "x.pbix"]
        ≠ item_extract_dir ["tmp"] ["r"] ["r", "b", "y.pbix"] :=
  c6_amended_distinct_parents ["r", "a", "x.pbix"] ["r", "b", "y.pbix"] ["r"]
    ["out"] ["tmp"] (by decide) (by decide) (by decide)

/-! ## C7 -/

/-- **C7 counterexample.** Unsupported-model detection at the *extraction*
stage is not reported as a warning: a failed invocation whose stdout contains
`could not be deserialized` produces an error-level log (and a debug detail
line), with no warning-level event at all. -/
theorem c7_counterexample :
    ((run_subprocess ["cli", "extract", "r/a.pbix", "-extractFolder", "tmp"]
        "extraction of a.pbix"
        (.exitNonZero 1 "Report could not be deserialized. Model required: V3" "")).2.map
      LogEvent.level) = [LogLevel.error, LogLevel.debug] := by
  decide

/-- **C7 (amended).** Unsupported-model detection at the compilation stage
(`does not contain a V3 model`, no result marker) is reported as a warning
and the item is skipped; detection at the extraction stage (`could not be
deserialized` in the failed invocation's stdout) is reported with the
specific *error-level* message `File model is not supported. Model required:
V3` rather than a warning. In both cases the invocation returns no output for
the item and the batch still yields one report per file. -/
theorem c7_amended_unsupported_model
    (command : List String) (description : String) (code : Int) (out err : String)
    (hdes : containsSub deserializedSubstr out.toList = true)
    (pbix_file output_folder cli_path core_path report_folder temp_folder : PyPath)
    (clean_extract : Bool) (env : PipelineEnv)
    (rel : PyPath) (hrel : relative_to pbix_file report_folder = some rel)
    (hmk : env.mkdirError = none)
    (es : String) (hex : env.extractResult = .exitZero es) (hes : es ≠ "")
    (cs : String) (hco : env.compileResult = .exitZero cs) (hcs : cs ≠ "")
    (hv3 : containsSub v3Substr cs.toList = true)
    (hm : searchCI pbitMarker cs.toList = none)
    (envs : PyPath → PipelineEnv) (files : List PyPath) :
    (run_subprocess command description (.exitNonZero code out err)).1 = none ∧
    ((run_subprocess command description (.exitNonZero code out err)).2.head?).map
        LogEvent.level = some LogLevel.error ∧
    ((run_subprocess command description (.exitNonZero code out err)).2.head?).map
        LogEvent.msg = some "File model is not supported. Model required: V3" ∧
    (process_pbix_file pbix_file output_folder cli_path core_path report_folder
        temp_folder clean_extract env).outcome = .noPbit ∧
    (⟨.warning, "Skipping: PBIX requires V3 model"⟩ : LogEvent)
      ∈ (process_pbix_file pbix_file output_folder cli_path core_path report_folder
          temp_folder clean_extract env).logs ∧
    (runBatch output_folder cli_path core_path report_folder temp_folder clean_extract
        envs files).length = files.length := by
  have hdes2 : containsSub deserializedSubstr out.data = true := hdes
  have hm2 : searchCI pbitMarker cs.data = none := hm
  have hv32 : containsSub v3Substr cs.data = true := hv3
  refine ⟨?_, ?_, ?_, ?_, ?_, by simp [runBatch]⟩
  · simp [run_subprocess, hdes2]
  · simp [run_subprocess, hdes2]
  · simp [run_subprocess, hdes2]
  · simp [process_pbix_file, hrel, hmk, extract_pbix, compile_to_pbit, run_subprocess,
      hex, hco, optTruthy, hes, hcs, parse_pbit_output, hm2, hv32]
  · simp [process_pbix_file, hrel, hmk, extract_pbix, compile_to_pbit, run_subprocess,
      hex, hco, optTruthy, hes, hcs, parse_pbit_output, hm2, hv32]

/-- Witness for the amended C7 with concrete tool outputs at both stages. -/
theorem c7_amended_witness :
    (run_subprocess ["cli"] "extraction of a.pbix"
        (.exitNonZero 1 "it could not be deserialized" "")).1 = none ∧
    ((run_subprocess ["cli"] "extraction of a.pbix"
        (.exitNonZero 1 "it could not be deserialized" "")).2.head?).map
        LogEvent.level = some LogLevel.error ∧
    ((run_subprocess ["cli"] "extraction of a.pbix"
        (.exitNonZero 1 "it could not be deserialized" "")).2.head?).map
        LogEvent.msg = some "File model is not supported. Model required: V3" ∧
    (process_pbix_file ["r", "c.pbix"] ["out"] ["cli"] ["core"] ["r"] ["tmp"] false
        ⟨.exitZero "ok", .exitZero "file does not contain a V3 model", none⟩).outcome
      = .noPbit ∧
    (⟨.warning, "Skipping: PBIX requires V3 model"⟩ : LogEvent)
      ∈ (process_pbix_file ["r", "c.pbix"] ["out"] ["cli"] ["core"] ["r"] ["tmp"] false
          ⟨.exitZero "ok", .exitZero "file does not contain a V3 model", none⟩).logs ∧
    (runBatch ["out"] ["cli"] ["core"] ["r"] ["tmp"] false
        (fun _ => ⟨.exitZero "ok", .exitZero "ok", none⟩) [["r", "c.pbix"]]).length = 1 :=
  c7_amended_unsupported_model ["cli"] "extraction of a.pbix" 1
    "it could not be deserialized" "" (by decide)
    ["r", "c.pbix"] ["out"] ["cli"] ["core"] ["r"] ["tmp"] false
    ⟨.exitZero "ok", .exitZero "file does not contain a V3 model", none⟩
    ["c.pbix"] (by decide) rfl
    "ok" rfl (by decide)
    "file does not contain a V3 model" rfl (by decide) (by decide) (by decide)
    (fun _ => ⟨.exitZero "ok", .exitZero "ok", none⟩) [["r", "c.pbix"]]

/-! ## C8 -/

/-- Closed form of the progress line emitted after the `(i+1)`-th item of the
remaining list `rest`, when `p` items took `t` seconds before it. -/
def progressEntry (n p : ℕ) (t : ℚ) (rest : List ℚ) (i : ℕ) : ProgressLine :=
  ⟨p + i + 1, n, (((p + i + 1 : ℕ) : ℚ) / ((n : ℕ) : ℚ)) * 100,
   ((t + (rest.take (i + 1)).sum) / ((p + i + 1 : ℕ) : ℚ)) *
     (((n : ℕ) : ℚ) - ((p + i + 1 : ℕ) : ℚ))⟩

/-- Loop invariant of `main`'s timing: with `p` items already processed in
`t` seconds and `rest` still to go (so the batch has `p + rest.length`
files), the loop emits one progress line per non-final remaining item, with
average-based ETA and percentage, and ends with `t` plus the remaining
durations. -/
theorem mainLoopTiming_eq (rest : List ℚ) : ∀ (p : ℕ) (t : ℚ),
    mainLoopTiming rest p (p + rest.length) t =
      ((List.range (rest.length - 1)).map (progressEntry (p + rest.length) p t rest),
       t + rest.sum) := by
  induction rest with
  | nil => intro p t; simp [mainLoopTiming]
  | cons d rest ih =>
      intro p t
      have hn : p + (d :: rest).length = (p + 1) + rest.length := by
        simp [List.length_cons]
        omega
      rw [hn]
      simp only [mainLoopTiming]
      rw [ih (p + 1) (t + d)]
      refine Prod.ext ?_ ?_
      · rcases rest with _ | ⟨e, rest2⟩
        · simp
        · have hlt : p + 1 < p + 1 + (e :: rest2).length := by simp
          rw [if_pos hlt]
          simp only [List.length_cons, Nat.add_sub_cancel, List.range_succ_eq_map,
            List.map_cons, List.map_map, List.singleton_append]
          congr 1
          · simp [progressEntry]
          · apply List.map_congr_left
            intro i hi
            have hnat : p + 1 + i + 1 = p + (i + 1) + 1 := by omega
            simp [progressEntry, Function.comp, hnat, add_assoc]
            refine ⟨by omega, by ring, by ring⟩
      · simp [add_assoc]

/-- **C8.** For a batch with durations `d₁..dₙ`, after item `k < n` the
reported progress line shows `k` of `n` processed, percentage `(k/n)·100`,
ETA `((d₁+⋯+d_k)/k)·(n−k)`; the final summary total time is
`d₁+⋯+dₙ`. -/
theorem c8_progress_eta (ds : List ℚ) (k : ℕ) (h1 : 1 ≤ k) (h2 : k < ds.length) :
    (runTiming ds).1.get? (k - 1)
      = some ⟨k, ds.length, (((k : ℕ) : ℚ) / ((ds.length : ℕ) : ℚ)) * 100,
          ((ds.take k).sum / ((k : ℕ) : ℚ)) *
            (((ds.length : ℕ) : ℚ) - ((k : ℕ) : ℚ))⟩ ∧
    (runTiming ds).2 = ds.sum := by
  have hrt : runTiming ds
      = ((List.range (ds.length - 1)).map (progressEntry (0 + ds.length) 0 0 ds),
         0 + ds.sum) := by
    unfold runTiming
    have := mainLoopTiming_eq ds 0 0
    simpa using this
  constructor
  · rw [hrt]
    have hk : k - 1 < ds.length - 1 := by omega
    rw [List.get?_map, List.get?_range hk]
    have hknat : 0 + (k - 1) + 1 = k := by omega
    have hk2 : k - 1 + 1 = k := by omega
    simp [progressEntry, hknat, hk2]
  · rw [hrt]
    simp

/-- Witness for C8 on a three-item batch with durations 2, 4, 6 at `k = 1`. -/
theorem c8_witness :
    (runTiming [2, 4, 6]).1.get? (1 - 1)
      = some ⟨1, ([2, 4, 6] : List ℚ).length,
          (((1 : ℕ) : ℚ) / ((([2, 4, 6] : List ℚ).length : ℕ) : ℚ)) * 100,
          ((([2, 4, 6] : List ℚ).take 1).sum / ((1 : ℕ) : ℚ)) *
            (((([2, 4, 6] : List ℚ).length : ℕ) : ℚ) - ((1 : ℕ) : ℚ))⟩ ∧
    (runTiming ([2, 4, 6] : List ℚ)).2 = ([2, 4, 6] : List ℚ).sum :=
  c8_progress_eta [2, 4, 6] 1 (by decide) (by decide)

end PbixConverter
